import Mathlib

/-!
Shallow embedding of the `redisconsumer` package: a Redis-streams
consumer-group engine.  Pure data and state transitions are translated from
the Go source; interactions with the external Redis client, the logger and
the clock are made explicit:

* time is `Int` nanoseconds (Go `time.Time` / `time.Duration`);
* each observable side effect (handler invocation, `XAck` call, each
  distinct `log.Printf` call site, `time.Sleep`, the liveness-timestamp
  write, goroutine spawns) is an `Effect` value, and functions return the
  list of effects they perform in order;
* results of external Redis calls (`XGroupCreateMkStream`, `XReadGroup`,
  `XAck`) are oracle parameters, since they depend on the external server.

Tracing spans are elided: the tracer is an external collaborator whose only
capability is start/end of a span, and no claim concerns spans.
-/

namespace RedisConsumer

/-!
Time instants and durations are `Int` nanoseconds, as in Go's `time`
package (`time.Time` relative to the epoch, `time.Duration`).
-/

/-- One stream entry (`redis.XMessage`): identifier plus field/value pairs. -/
structure XMessage where
  ID : String
  Values : List (String × String)
  deriving Repr, DecidableEq

/-- One per-stream result of a group read (`redis.XStream`). -/
structure XStream where
  Stream : String
  Messages : List XMessage
  deriving Repr, DecidableEq

/-- The user handler, `func(ctx, stream, msg) error`.  The context is
elided; the returned `Option String` is the Go error (`none` = nil). -/
abbrev Handler := String → XMessage → Option String

/-- Configuration of the consumer (`ConsumerConfig`).  `Tracer` is modelled
by name only (`none` = nil tracer handle). -/
structure ConsumerConfig where
  Addr : String
  Password : String
  User : String
  DB : Int
  Streams : List String
  Group : String
  ConsumerName : String
  ReadCount : Int
  BlockTime : Int
  Concurrency : Int
  HealthAddr : String
  AckOnSuccess : Bool
  Tracer : Option String

/-- Mutable state of a `Consumer`.  The wait group and mutexes guard
concurrency and are not part of the sequential state; `cancel` is modelled
by the flag `hasCancel` (whether a cancel function has been installed). -/
structure Consumer where
  cfg : ConsumerConfig
  handler : Handler
  started : Bool
  hasCancel : Bool
  lastPoll : Int

/-- Observable side effects, one constructor per effectful call site in the
source (handler call, `XAck`, each `log.Printf`, `time.Sleep`, the
`lastPoll` write, goroutine spawns). -/
inductive Effect where
  | handled (stream id : String)
  | acked (stream group id : String)
  | loggedHandlerError (stream id err : String)
  | loggedAckError (stream id err : String)
  | loggedReadError (stream err : String)
  | loggedGroupCreateError (stream err : String)
  | slept (ns : Int)
  | touched (t : Int)
  | spawnedHealth (addr : String)
  | spawnedWorker (stream : String) (idx : Nat)
  deriving Repr, DecidableEq

/-- Defaulting block of `NewConsumer`.  The Go code assigns the fields one
after the other; each assignment's condition reads only the field it sets,
so the four updates act on disjoint fields and are written here as one
record update:
`if cfg.Concurrency <= 0`, `if cfg.ReadCount == 0`, `if cfg.BlockTime == 0`,
`if cfg.Tracer == nil`. -/
def withDefaults (cfg : ConsumerConfig) : ConsumerConfig :=
  { cfg with
    Concurrency := if cfg.Concurrency ≤ 0 then 1 else cfg.Concurrency,
    ReadCount := if cfg.ReadCount = 0 then 10 else cfg.ReadCount,
    BlockTime := if cfg.BlockTime = 0 then 5 * 1000000000 else cfg.BlockTime,
    Tracer := match cfg.Tracer with
      | none => some "redisconsumer"
      | some t => some t }

/-- Translation of `NewConsumer`: validation, defaulting, construction.
`handler` is `Option Handler` so a nil Go handler is representable; `now`
is the value of `time.Now()` at construction, stored into `lastPoll`. -/
def NewConsumer (cfg : ConsumerConfig) (handler : Option Handler) (now : Int) :
    Except String Consumer :=
  match handler with
  | none => .error "handler required"
  | some h =>
    if cfg.Streams.length = 0 ∨ cfg.Group = "" then
      .error "streams and group are required"
    else
      .ok { cfg := withDefaults cfg, handler := h, started := false,
            hasCancel := false, lastPoll := now }

/-- Translation of `Health`: stale error iff more than 30 seconds have
passed since `lastPoll` (`time.Since(c.lastPoll) > 30*time.Second`). -/
def Health (c : Consumer) (now : Int) : Option String :=
  if now - c.lastPoll > 30 * 1000000000 then some "no recent poll" else none

/-- Translation of `processMessage`: span start/end elided, then the
handler is invoked; on handler error, log and return; on success, if
`AckOnSuccess`, issue `XAck` and log a failure of it.  `ackErr` is the
oracle for the `XAck` result (`none` = success).  The Go function returns
nothing, so no error reaches the caller; the effect list records the
handler call, the ack call and the logs, in program order. -/
def processMessage (c : Consumer) (stream : String) (msg : XMessage)
    (ackErr : Option String) : List Effect :=
  Effect.handled stream msg.ID ::
    match c.handler stream msg with
    | some err => [Effect.loggedHandlerError stream msg.ID err]
    | none =>
      if c.cfg.AckOnSuccess then
        Effect.acked stream c.cfg.Group msg.ID ::
          (match ackErr with
           | some e => [Effect.loggedAckError stream msg.ID e]
           | none => [])
      else []

/-- Possible results of the `XReadGroup` call in `consumeLoop`:
`redis.Nil` (block timeout, no data), another error, or a batch. -/
inductive ReadOutcome where
  | nilTimeout
  | readErr (e : String)
  | ok (results : List XStream)
  deriving Repr

/-- One iteration of the infinite loop in `consumeLoop`.  `cancelled` is
whether `ctx.Done()` is ready at the top of the iteration (then the
goroutine returns, modelled by `none`); otherwise the read outcome is
`outcome` and `now` is `time.Now()` at the liveness update.  A `some`
result carries the successor state and the iteration's effects; the loop
then continues with the next read.  Note the Go code dispatches with the
loop's `stream` argument, not `s.Stream`. -/
def consumeLoopStep (c : Consumer) (stream : String) (cancelled : Bool)
    (outcome : ReadOutcome) (now : Int) (ackErr : String → Option String) :
    Option (Consumer × List Effect) :=
  if cancelled then none
  else some <| match outcome with
    | .nilTimeout => (c, [])
    | .readErr e => (c, [Effect.loggedReadError stream e, Effect.slept 1000000000])
    | .ok results =>
      let c' := { c with lastPoll := now }
      (c', Effect.touched now ::
        results.flatMap fun s =>
          s.Messages.flatMap fun msg =>
            processMessage c' stream msg (ackErr msg.ID))

/-- Consumer identity presented to Redis by worker `id` of a loop:
`fmt.Sprintf("%s-%d", c.cfg.ConsumerName, id)`. -/
def consumerIdentity (pfx : String) (id : Nat) : String :=
  pfx ++ "-" ++ Nat.repr id

/-- All worker loops started by `Start` via `consumeStream`: for each
configured stream, loops with ordinal indices `0 .. Concurrency-1`. -/
def workerLoops (cfg : ConsumerConfig) : List (String × Nat) :=
  cfg.Streams.flatMap fun s =>
    (List.range cfg.Concurrency.toNat).map fun i => (s, i)

/-- Error message Redis returns when the consumer group already exists. -/
def busyGroupMsg : String := "BUSYGROUP Consumer Group name already exists"

/-- Bootstrap phase of `Start`: for each stream, `XGroupCreateMkStream`
(result given by the oracle `groupErr`; `none` = success); a failure is
logged unless its message is `BUSYGROUP Consumer Group name already
exists`; in every case the loop proceeds to the next stream. -/
def startBootstrapEffects (cfg : ConsumerConfig)
    (groupErr : String → Option String) : List Effect :=
  cfg.Streams.flatMap fun stream =>
    match groupErr stream with
    | none => []
    | some e =>
      if e = busyGroupMsg then []
      else [Effect.loggedGroupCreateError stream e]

/-- Translation of `Start`: under `startMu`, fail if already started; else
set `started`, install the cancel function, bootstrap the groups, spawn the
health server when `HealthAddr` is set, and spawn the worker goroutines
(`consumeStream` fans out `Concurrency` loops per stream).  Returns the
new state, the returned error, and the effects in program order. -/
def Start (c : Consumer) (groupErr : String → Option String) :
    Consumer × Option String × List Effect :=
  if c.started then (c, some "consumer already started", [])
  else
    let c' := { c with started := true, hasCancel := true }
    let fx := startBootstrapEffects c.cfg groupErr
      ++ (if c.cfg.HealthAddr ≠ "" then [Effect.spawnedHealth c.cfg.HealthAddr] else [])
      ++ (workerLoops c.cfg).map fun l => Effect.spawnedWorker l.1 l.2
    (c', none, fx)

/-- Number of `XAck` calls recorded in an effect list. -/
def ackCount (fx : List Effect) : Nat :=
  fx.countP fun e => match e with | .acked _ _ _ => true | _ => false

/-- Stream/identifier pairs of the handler invocations in an effect list,
in order: the dispatch sequence. -/
def dispatched (fx : List Effect) : List (String × String) :=
  fx.filterMap fun e => match e with
    | .handled s i => some (s, i)
    | _ => none

/-- Number of `lastPoll` writes recorded in an effect list. -/
def touchCount (fx : List Effect) : Nat :=
  fx.countP fun e => match e with | .touched _ => true | _ => false

/-! ### Decimal-representation helpers

`fmt.Sprintf("%s-%d", name, id)` renders `id` in decimal; injectivity of
`Nat.repr` is needed to compare consumer identities. -/

/-- Numeric value of a decimal digit character. -/
def digitVal (c : Char) : Nat := c.toNat - 48

/-- Value of a big-endian list of decimal digit characters. -/
def ofDigits (cs : List Char) : Nat := cs.foldl (fun a c => 10 * a + digitVal c) 0

theorem toDigitsCore_append (b : Nat) :
    ∀ (fuel n : Nat) (ds : List Char),
      Nat.toDigitsCore b fuel n ds = Nat.toDigitsCore b fuel n [] ++ ds := by
  intro fuel
  induction fuel with
  | zero => intro n ds; simp [Nat.toDigitsCore]
  | succ fuel ih =>
    intro n ds
    simp only [Nat.toDigitsCore]
    by_cases h : n / b = 0
    · simp [h]
    · simp only [h, if_false]
      rw [ih (n / b) (Nat.digitChar (n % b) :: ds), ih (n / b) [Nat.digitChar (n % b)]]
      simp

theorem digitVal_digitChar (d : Nat) (h : d < 10) :
    digitVal (Nat.digitChar d) = d := by
  interval_cases d <;> rfl

theorem ofDigits_append (xs : List Char) (c : Char) :
    ofDigits (xs ++ [c]) = 10 * ofDigits xs + digitVal c := by
  simp [ofDigits, List.foldl_append]

theorem ofDigits_toDigitsCore :
    ∀ (fuel n : Nat), n < fuel → ofDigits (Nat.toDigitsCore 10 fuel n []) = n := by
  intro fuel
  induction fuel with
  | zero => omega
  | succ fuel ih =>
    intro n hn
    simp only [Nat.toDigitsCore]
    by_cases h : n / 10 = 0
    · simp only [h, if_true]
      have h10 : n % 10 < 10 := Nat.mod_lt _ (by omega)
      simp [ofDigits, digitVal_digitChar _ h10]
      omega
    · simp only [h, if_false]
      rw [toDigitsCore_append, ofDigits_append]
      have hlt : n / 10 < fuel := by omega
      rw [ih (n / 10) hlt]
      have h10 : n % 10 < 10 := Nat.mod_lt _ (by omega)
      rw [digitVal_digitChar _ h10]
      omega

theorem repr_injective : Function.Injective Nat.repr := by
  intro m n h
  have hdata : Nat.toDigits 10 m = Nat.toDigits 10 n := by
    have := congrArg String.data h
    simpa [Nat.repr, List.asString] using this
  have hm := ofDigits_toDigitsCore (m + 1) m (Nat.lt_succ_self m)
  have hn := ofDigits_toDigitsCore (n + 1) n (Nat.lt_succ_self n)
  simp only [Nat.toDigits] at hdata
  rw [hdata, hn] at hm
  exact hm.symm

theorem string_append_cancel_left (p s t : String) (h : p ++ s = p ++ t) :
    s = t := by
  have := congrArg String.data h
  simp [String.data_append] at this
  exact String.ext this

/-! ### Concrete fixtures used by witnesses and counterexamples -/

/-- Handler that always succeeds. -/
def handlerOk : Handler := fun _ _ => none

/-- Handler that always fails. -/
def handlerFail : Handler := fun _ _ => some "boom"

/-- One concrete message. -/
def msgA : XMessage := { ID := "1-0", Values := [("k", "v")] }

/-- One valid configuration (all numeric fields already positive). -/
def cfgBase : ConsumerConfig :=
  { Addr := "localhost:6379", Password := "", User := "", DB := 0,
    Streams := ["events"], Group := "g", ConsumerName := "c", ReadCount := 10,
    BlockTime := 5000000000, Concurrency := 2, HealthAddr := "",
    AckOnSuccess := true, Tracer := some "t" }

/-- The consumer `NewConsumer cfgBase (some handlerOk) 0` builds. -/
def consumerOk : Consumer :=
  { cfg := cfgBase, handler := handlerOk, started := false, hasCancel := false,
    lastPoll := 0 }

/-- A consumer whose handler always fails. -/
def consumerFail : Consumer :=
  { cfg := cfgBase, handler := handlerFail, started := false,
    hasCancel := false, lastPoll := 0 }

/-- Group-create oracle: every creation succeeds. -/
def gNone : String → Option String := fun _ => none

/-- Group-create oracle: every creation fails with a non-BUSYGROUP error. -/
def gErr : String → Option String := fun _ => some "ERR other"

/-- Group-create oracle: every creation reports the group already exists. -/
def gBusy : String → Option String := fun _ => some busyGroupMsg

/-- A configuration in which `ReadCount` and `BlockTime` are negative and
`Concurrency` is zero. -/
def cfgC5 : ConsumerConfig :=
  { cfgBase with ReadCount := -1, BlockTime := -2, Concurrency := 0 }

/-- The consumer `NewConsumer cfgC5 (some handlerOk) 0` builds: only
`Concurrency` was defaulted. -/
def consumerC5 : Consumer :=
  { cfg := { cfgC5 with Concurrency := 1 }, handler := handlerOk,
    started := false, hasCancel := false, lastPoll := 0 }

/-- A two-stream configuration with one worker loop per stream. -/
def cfgC6 : ConsumerConfig :=
  { cfgBase with Streams := ["events", "logs"], Concurrency := 1 }

/-! ### Structural lemmas about effect lists -/

theorem dispatched_processMessage (c : Consumer) (s : String) (m : XMessage)
    (a : Option String) :
    dispatched (processMessage c s m a) = [(s, m.ID)] := by
  cases hh : c.handler s m <;> cases a <;>
    by_cases hb : c.cfg.AckOnSuccess <;>
      simp [processMessage, dispatched, hh, hb]

theorem dispatched_append (l1 l2 : List Effect) :
    dispatched (l1 ++ l2) = dispatched l1 ++ dispatched l2 := by
  simp [dispatched, List.filterMap_append]

theorem dispatched_flatMap {α : Type} (l : List α) (g : α → List Effect) :
    dispatched (l.flatMap g) = l.flatMap fun x => dispatched (g x) := by
  induction l with
  | nil => simp [dispatched]
  | cons x xs ih => simp [List.flatMap_cons, dispatched_append, ih]

theorem dispatched_touched_cons (t : Int) (l : List Effect) :
    dispatched (Effect.touched t :: l) = dispatched l := by
  simp [dispatched]

theorem mem_bootstrap_iff (cfg : ConsumerConfig) (g : String → Option String)
    (s e : String) :
    Effect.loggedGroupCreateError s e ∈ startBootstrapEffects cfg g ↔
      s ∈ cfg.Streams ∧ g s = some e ∧ e ≠ busyGroupMsg := by
  simp only [startBootstrapEffects, List.mem_flatMap]
  constructor
  · rintro ⟨x, hx, hmem⟩
    rcases hgx : g x with _ | e'
    · simp [hgx] at hmem
    · rw [hgx] at hmem
      by_cases hb : e' = busyGroupMsg
      · simp [hb] at hmem
      · simp [hb] at hmem
        obtain ⟨rfl, rfl⟩ := hmem
        exact ⟨hx, hgx, hb⟩
  · rintro ⟨hs, hgs, hb⟩
    exact ⟨s, hs, by simp [hgs, hb]⟩

theorem mem_spawned_iff (cfg : ConsumerConfig) (s : String) (i : Nat) :
    Effect.spawnedWorker s i ∈
        (workerLoops cfg).map (fun l => Effect.spawnedWorker l.1 l.2) ↔
      s ∈ cfg.Streams ∧ i < cfg.Concurrency.toNat := by
  constructor
  · intro h
    obtain ⟨l, hl, heq⟩ := List.mem_map.mp h
    simp only [workerLoops] at hl
    obtain ⟨x, hx, hlx⟩ := List.mem_flatMap.mp hl
    obtain ⟨j, hj, hji⟩ := List.mem_map.mp hlx
    subst hji
    cases heq
    exact ⟨hx, List.mem_range.mp hj⟩
  · rintro ⟨hs, hi⟩
    refine List.mem_map.mpr ⟨(s, i), ?_, rfl⟩
    simp only [workerLoops]
    exact List.mem_flatMap.mpr ⟨s, hs, List.mem_map.mpr ⟨i, List.mem_range.mpr hi, rfl⟩⟩

/-! ### Claim theorems -/

/-- C1: for every delivered entry, if acknowledge-on-success is enabled and
the handler returns nil, `processMessage` issues exactly one `XAck` call;
if the handler returns an error, it issues zero `XAck` calls; and when the
`XAck` call fails, the failure is logged once, the call is not retried (the
effect list is exactly handler call, single ack, single log) and nothing is
returned to the caller (the function's result is only the effect list). -/
theorem processMessage_ack_exactly_once (c : Consumer) (stream : String)
    (msg : XMessage) (ackErr : Option String) :
    (c.handler stream msg = none → c.cfg.AckOnSuccess = true →
      ackCount (processMessage c stream msg ackErr) = 1) ∧
    (∀ e, c.handler stream msg = some e →
      ackCount (processMessage c stream msg ackErr) = 0) ∧
    (∀ e, c.handler stream msg = none → c.cfg.AckOnSuccess = true →
      ackErr = some e →
      processMessage c stream msg ackErr =
        [Effect.handled stream msg.ID,
         Effect.acked stream c.cfg.Group msg.ID,
         Effect.loggedAckError stream msg.ID e]) := by
  refine ⟨?_, ?_, ?_⟩
  · intro h1 h2
    cases hae : ackErr <;>
      simp [processMessage, h1, h2, hae, ackCount, List.countP_cons, List.countP_nil]
  · intro e he
    simp [processMessage, he, ackCount, List.countP_cons, List.countP_nil]
  · intro e h1 h2 h3
    simp [processMessage, h1, h2, h3]

/-- Witness for C1 at concrete inputs: a succeeding handler with
acknowledge-on-success yields one ack, a failing handler yields zero, and a
failing ack yields exactly one ack plus one log. -/
theorem processMessage_ack_exactly_once_witness :
    ackCount (processMessage consumerOk "events" msgA none) = 1 ∧
    ackCount (processMessage consumerFail "events" msgA none) = 0 ∧
    processMessage consumerOk "events" msgA (some "ackboom") =
      [Effect.handled "events" "1-0", Effect.acked "events" "g" "1-0",
       Effect.loggedAckError "events" "1-0" "ackboom"] :=
  ⟨(processMessage_ack_exactly_once consumerOk "events" msgA none).1 rfl rfl,
   (processMessage_ack_exactly_once consumerFail "events" msgA none).2.1 "boom" rfl,
   (processMessage_ack_exactly_once consumerOk "events" msgA
      (some "ackboom")).2.2 "ackboom" rfl rfl rfl⟩

/-- C2: for every successful group read, the loop iteration first sets the
liveness timestamp to `now` (the `touched` effect heads the list and the
successor state's `lastPoll` is `now`) and then dispatches every entry of
every returned stream-result, in exactly the order returned by the read,
all within the same iteration (the step returns before the next read). -/
theorem consumeLoop_dispatch_order (c : Consumer) (stream : String)
    (results : List XStream) (now : Int) (ackErr : String → Option String) :
    ∃ c' fx,
      consumeLoopStep c stream false (.ok results) now ackErr = some (c', fx) ∧
      c'.lastPoll = now ∧
      fx.head? = some (Effect.touched now) ∧
      dispatched fx = results.flatMap fun s => s.Messages.map fun m => (stream, m.ID) := by
  refine ⟨_, _, rfl, rfl, rfl, ?_⟩
  rw [dispatched_touched_cons, dispatched_flatMap]
  simp only [dispatched_flatMap, dispatched_processMessage, List.map_eq_flatMap]

/-- C3: `Health` reports the stale error exactly when more than 30 seconds
have passed since the liveness timestamp `lastPoll` (which records the last
successful batch read), and immediately after a loop iteration completes a
successful read the health query at that instant reports healthy. -/
theorem health_stale_iff (c : Consumer) (now : Int) :
    ((Health c now).isSome = true ↔ 30 * 1000000000 < now - c.lastPoll) ∧
    (∀ (stream : String) (results : List XStream) (ackErr : String → Option String),
      (consumeLoopStep c stream false (.ok results) now ackErr).map
        (fun p => Health p.1 now) = some none) := by
  constructor
  · by_cases h : 30 * 1000000000 < now - c.lastPoll <;> simp [Health, h]
  · intro stream results ackErr
    simp [consumeLoopStep, Health]

/-- C4: a `redis.Nil` read outcome makes the iteration continue at once,
with no effect at all (no log, no sleep, no liveness update) and the state
unchanged; any other read error makes the iteration log once, sleep exactly
one second, leave the state unchanged, and continue (`some` successor, so
the loop retries and no error escapes to the engine's caller). -/
theorem consumeLoop_read_error_handling (c : Consumer) (stream : String)
    (now : Int) (ackErr : String → Option String) :
    consumeLoopStep c stream false .nilTimeout now ackErr = some (c, []) ∧
    ∀ e, consumeLoopStep c stream false (.readErr e) now ackErr =
      some (c, [Effect.loggedReadError stream e, Effect.slept 1000000000]) :=
  ⟨rfl, fun _ => rfl⟩

/-- C5 counterexample: the configuration `cfgC5` has negative `ReadCount`
(-1) and negative `BlockTime` (-2); `NewConsumer` accepts it and keeps both
negative values instead of replacing the non-positive values by the
defaults 10 and 5s — only `Concurrency` is coerced to 1.  The Go tests are
`cfg.ReadCount == 0` and `cfg.BlockTime == 0`, not `<= 0`. -/
theorem defaults_negative_readcount_counterexample :
    (NewConsumer cfgC5 (some handlerOk) 0).toOption.map
        (fun c => (c.cfg.ReadCount, c.cfg.BlockTime, c.cfg.Concurrency)) =
      some (-1, -2, 1) := rfl

/-- C5 amended: `NewConsumer` coerces a non-positive `Concurrency` to 1;
it replaces `ReadCount` by 10 and `BlockTime` by 5 seconds only when they
are exactly zero (negative values are kept as given); a nil tracer is
replaced by a default tracer. -/
theorem newConsumer_defaults_amended (cfg : ConsumerConfig) (h : Handler)
    (now : Int) (c : Consumer) (hok : NewConsumer cfg (some h) now = .ok c) :
    0 < c.cfg.Concurrency ∧
    (cfg.Concurrency ≤ 0 → c.cfg.Concurrency = 1) ∧
    (0 < cfg.Concurrency → c.cfg.Concurrency = cfg.Concurrency) ∧
    (cfg.ReadCount = 0 → c.cfg.ReadCount = 10) ∧
    (cfg.ReadCount ≠ 0 → c.cfg.ReadCount = cfg.ReadCount) ∧
    (cfg.BlockTime = 0 → c.cfg.BlockTime = 5 * 1000000000) ∧
    (cfg.BlockTime ≠ 0 → c.cfg.BlockTime = cfg.BlockTime) ∧
    c.cfg.Tracer.isSome = true := by
  simp only [NewConsumer] at hok
  split at hok
  · exact absurd hok (by simp)
  · simp only [Except.ok.injEq] at hok
    subst hok
    simp only [withDefaults]
    refine ⟨?_, ?_, ?_, ?_, ?_, ?_, ?_, ?_⟩
    · split_ifs <;> omega
    · intro hc; rw [if_pos hc]
    · intro hc
      have hx : ¬cfg.Concurrency ≤ 0 := by omega
      rw [if_neg hx]
    · intro hr; rw [if_pos hr]
    · intro hr; rw [if_neg hr]
    · intro hb; rw [if_pos hb]
    · intro hb; rw [if_neg hb]
    · rcases cfg.Tracer <;> simp

/-- Witness for the amended C5 at `cfgC5`: concurrency was coerced to a
positive value, the negative `ReadCount` was kept as given. -/
theorem newConsumer_defaults_amended_witness :
    0 < consumerC5.cfg.Concurrency ∧
    consumerC5.cfg.ReadCount = cfgC5.ReadCount :=
  ⟨(newConsumer_defaults_amended cfgC5 handlerOk 0 consumerC5 rfl).1,
   (newConsumer_defaults_amended cfgC5 handlerOk 0 consumerC5 rfl).2.2.2.2.1
     (by decide)⟩

/-- C6 counterexample: with the two-stream configuration `cfgC6`
(concurrency 1), the worker loops `("events", 0)` and `("logs", 0)` are
distinct loops started by the engine, yet both present the same consumer
identity `"c-0"` to Redis: the ordinal index restarts at 0 for every
stream, so identities are not exclusive across streams. -/
theorem consumer_identity_cross_stream_counterexample :
    ("events", 0) ∈ workerLoops cfgC6 ∧
    ("logs", 0) ∈ workerLoops cfgC6 ∧
    ("events", (0 : Nat)) ≠ ("logs", 0) ∧
    consumerIdentity cfgC6.ConsumerName ("events", (0 : Nat)).2 =
      consumerIdentity cfgC6.ConsumerName ("logs", (0 : Nat)).2 := by
  refine ⟨?_, ?_, ?_, rfl⟩ <;> decide

/-- C6 amended: among the worker loops of one stream, no two loops share a
consumer identity: two distinct loops for the same stream have distinct
ordinal indices, and suffixing distinct indices to the prefix yields
distinct identity strings.  (Loops of different streams reuse the same
identities, as the counterexample shows.) -/
theorem consumer_identity_unique_within_stream (cfg : ConsumerConfig)
    (l1 l2 : String × Nat)
    (h1 : l1 ∈ workerLoops cfg) (h2 : l2 ∈ workerLoops cfg)
    (hs : l1.1 = l2.1) (hne : l1 ≠ l2) :
    consumerIdentity cfg.ConsumerName l1.2 ≠ consumerIdentity cfg.ConsumerName l2.2 := by
  intro heq
  apply hne
  have hid : l1.2 = l2.2 := by
    have := string_append_cancel_left (cfg.ConsumerName ++ "-")
      (Nat.repr l1.2) (Nat.repr l2.2) ?_
    · exact repr_injective this
    · simpa [consumerIdentity, String.append_assoc] using heq
  exact Prod.ext hs hid

/-- Witness for the amended C6: the two loops of stream "events" under
`cfgBase` (concurrency 2) present distinct identities. -/
theorem consumer_identity_unique_within_stream_witness :
    consumerIdentity cfgBase.ConsumerName 0 ≠ consumerIdentity cfgBase.ConsumerName 1 :=
  consumer_identity_unique_within_stream cfgBase ("events", 0) ("events", 1)
    (by decide) (by decide) rfl (by decide)

/-- C7: `NewConsumer` succeeds exactly when a handler is supplied, the
streams list is non-empty and the group name is non-empty; otherwise it
returns an error.  The function is pure, so the result is produced
synchronously with no retry. -/
theorem newConsumer_ok_iff (cfg : ConsumerConfig) (h : Option Handler)
    (now : Int) :
    (NewConsumer cfg h now).isOk = true ↔
      (h.isSome = true ∧ cfg.Streams ≠ [] ∧ cfg.Group ≠ "") := by
  cases h with
  | none => simp [NewConsumer, Except.isOk, Except.toBool]
  | some hh =>
    constructor
    · intro hOk
      simp only [NewConsumer] at hOk
      split at hOk
      · simp [Except.isOk, Except.toBool] at hOk
      · rename_i hcond
        push_neg at hcond
        refine ⟨rfl, ?_, hcond.2⟩
        intro hnil
        exact hcond.1 (by simp [hnil])
    · rintro ⟨-, hstreams, hgroup⟩
      simp only [NewConsumer]
      rw [if_neg ?_]
      · rfl
      · rintro (hl | hg)
        · exact hstreams (List.length_eq_zero.mp hl)
        · exact hgroup hg

/-- C8: starting a not-yet-started consumer succeeds (`nil` error) and
marks it started; a second `Start` on the result returns the
already-started error, returns the state unchanged (started flag, cancel
function and all other fields), and performs no effects — in particular it
starts no additional workers. -/
theorem start_twice_already_started (c : Consumer)
    (g g2 : String → Option String) (hns : c.started = false) :
    (Start c g).2.1 = none ∧
    (Start c g).1.started = true ∧
    Start (Start c g).1 g2 = ((Start c g).1, some "consumer already started", []) := by
  simp [Start, hns]

/-- Witness for C8 at the concrete consumer `consumerOk`. -/
theorem start_twice_already_started_witness :
    (Start consumerOk gNone).2.1 = none ∧
    (Start consumerOk gNone).1.started = true ∧
    Start (Start consumerOk gNone).1 gNone =
      ((Start consumerOk gNone).1, some "consumer already started", []) :=
  start_twice_already_started consumerOk gNone gNone rfl

/-- C9: for every stream, a group-creation failure whose message is
`BUSYGROUP Consumer Group name already exists` produces no log; any other
group-creation failure is logged; in either case `Start` still spawns the
worker loops of every configured stream and returns `nil` (group-creation
failures never abort startup). -/
theorem start_bootstrap_best_effort (c : Consumer)
    (g : String → Option String) (hns : c.started = false) :
    (Start c g).2.1 = none ∧
    (∀ stream ∈ c.cfg.Streams, g stream = some busyGroupMsg →
      ∀ e, Effect.loggedGroupCreateError stream e ∉ (Start c g).2.2) ∧
    (∀ stream ∈ c.cfg.Streams, ∀ e, g stream = some e → e ≠ busyGroupMsg →
      Effect.loggedGroupCreateError stream e ∈ (Start c g).2.2) ∧
    (∀ stream ∈ c.cfg.Streams, ∀ i < c.cfg.Concurrency.toNat,
      Effect.spawnedWorker stream i ∈ (Start c g).2.2) := by
  have hS : Start c g =
      ({ c with started := true, hasCancel := true }, none,
        startBootstrapEffects c.cfg g ++
          (if c.cfg.HealthAddr ≠ "" then [Effect.spawnedHealth c.cfg.HealthAddr] else []) ++
            (workerLoops c.cfg).map fun l => Effect.spawnedWorker l.1 l.2) := by
    simp [Start, hns]
  rw [hS]
  refine ⟨rfl, ?_, ?_, ?_⟩
  · intro stream hstream hbusy e hmem
    simp only [List.mem_append] at hmem
    rcases hmem with (hmem | hmem) | hmem
    · rw [mem_bootstrap_iff] at hmem
      obtain ⟨-, hg, hne⟩ := hmem
      rw [hbusy] at hg
      exact hne (by injection hg with h; exact h.symm)
    · split at hmem <;> simp at hmem
    · obtain ⟨l, -, heq⟩ := List.mem_map.mp hmem
      cases heq
  · intro stream hstream e hg hne
    simp only [List.mem_append]
    exact Or.inl (Or.inl ((mem_bootstrap_iff c.cfg g stream e).mpr ⟨hstream, hg, hne⟩))
  · intro stream hstream i hi
    simp only [List.mem_append]
    exact Or.inr ((mem_spawned_iff c.cfg stream i).mpr ⟨hstream, hi⟩)

/-- Witness for C9: with an oracle failing all creations with `ERR other`
the failure is logged, workers are still spawned and `Start` returns nil;
with the BUSYGROUP oracle, no group-create log is produced. -/
theorem start_bootstrap_best_effort_witness :
    (Start consumerOk gErr).2.1 = none ∧
    Effect.loggedGroupCreateError "events" "ERR other" ∈ (Start consumerOk gErr).2.2 ∧
    Effect.spawnedWorker "events" 1 ∈ (Start consumerOk gErr).2.2 ∧
    Effect.loggedGroupCreateError "events" busyGroupMsg ∉ (Start consumerOk gBusy).2.2 :=
  ⟨(start_bootstrap_best_effort consumerOk gErr rfl).1,
   (start_bootstrap_best_effort consumerOk gErr rfl).2.2.1 "events" (by decide)
     "ERR other" rfl (by decide),
   (start_bootstrap_best_effort consumerOk gErr rfl).2.2.2 "events" (by decide)
     1 (by decide),
   (start_bootstrap_best_effort consumerOk gBusy rfl).2.1 "events" (by decide)
     rfl busyGroupMsg⟩

/-- C10: a consumer built by `NewConsumer` at time `now0` has its liveness
timestamp initialized to `now0` (not left unset), so `Health` returns nil
at every instant within 30 seconds of construction — before `Start` and
before any batch read. -/
theorem health_after_construction (cfg : ConsumerConfig) (h : Handler)
    (now0 now : Int) (c : Consumer)
    (hok : NewConsumer cfg (some h) now0 = .ok c)
    (hel : now - now0 ≤ 30 * 1000000000) :
    c.lastPoll = now0 ∧ Health c now = none := by
  have hlp : c.lastPoll = now0 := by
    simp only [NewConsumer] at hok
    split at hok
    · exact absurd hok (by simp)
    · simp only [Except.ok.injEq] at hok
      subst hok
      rfl
  refine ⟨hlp, ?_⟩
  simp only [Health, hlp]
  have hx : ¬now - now0 > 30 * 1000000000 := by omega
  rw [if_neg hx]

/-- Witness for C10: the consumer built from `cfgBase` at time 0 reports
healthy one microsecond later. -/
theorem health_after_construction_witness :
    consumerOk.lastPoll = 0 ∧ Health consumerOk 1000 = none :=
  health_after_construction cfgBase handlerOk 0 1000 consumerOk rfl (by decide)

end RedisConsumer
